import Mathlib

/-!
Verification of the NautiCAI mission-session aggregation and triage logic.

The session aggregator lives in `frontend/app/learn/page.tsx` and the HTTP
client in `frontend/lib/api.ts`; both are embedded below as pure Lean
functions.  JavaScript string-keyed objects (`Record<string, number>`) are
embedded as functions `String → Option Nat` (an absent key reads as `none`),
and the React `useState` discipline is made explicit: an event handler sees
the state values captured at render time, while functional updaters
(`set(prev => ...)`) thread the queued state through.

The backend triage engine (risk classifier and notification dispatcher) is
not part of the repository's files; where a claim depends on it, the
corresponding definition is modelled from the spec and says so in its doc
comment.
-/

set_option maxHeartbeats 1000000

namespace NauticAI

/-- One entry of the anomaly log (`AnomalyLogItem` in `frontend/lib/api.ts`):
`class_name`, `confidence`, `timestamp` and an optional base64 frame.  The
confidence is modelled as a rational; the session logic never computes with
it. -/
structure AnomalyLogItem where
  class_name : String
  confidence : ℚ
  timestamp : String
  frame_bytes_base64 : Option String := none
  deriving DecidableEq, Repr

/-- `Summary` from `frontend/lib/api.ts`: `{ total, critical, warnings, normal }`. -/
structure Summary where
  total : Nat
  critical : Nat
  warnings : Nat
  normal : Nat
  deriving DecidableEq, Repr

/-- A JavaScript object used as a string-keyed counter map
(`Record<string, number>`): a key that was never written reads as `none`. -/
abbrev CountMap := String → Option Nat

/-- The empty counter object. -/
def emptyCounts : CountMap := fun _ => none

/-- The label field of the `SEVERITY` table in `frontend/app/learn/page.tsx`
(the color and background fields play no role in the session logic):
`corrosion`, `damage`, `free_span` are CRITICAL; `marine_growth`, `debris`
are WARNING; `healthy`, `anode` are NORMAL; any other class is absent from
the table. -/
def SEVERITY (cls : String) : Option String :=
  if cls = "corrosion" then some "CRITICAL"
  else if cls = "damage" then some "CRITICAL"
  else if cls = "free_span" then some "CRITICAL"
  else if cls = "marine_growth" then some "WARNING"
  else if cls = "debris" then some "WARNING"
  else if cls = "healthy" then some "NORMAL"
  else if cls = "anode" then some "NORMAL"
  else none

/-- `getSeverity` from `frontend/app/learn/page.tsx`: `SEVERITY[cls] ??
defaultSeverity`, whose label is WARNING. -/
def getSeverity (cls : String) : String :=
  (SEVERITY cls).getD "WARNING"

/-- One step of the `detCounts` accumulation in `computeStatsFromLog`:
`detCounts[cls] = (detCounts[cls] ?? 0) + 1`. -/
def bumpClass (m : CountMap) (cls : String) : CountMap :=
  fun q => if q = cls then some ((m cls).getD 0 + 1) else m q

/-- One step of the critical/warnings/normal tally in `computeStatsFromLog`:
`if label === "CRITICAL" critical++ else if label === "WARNING" warnings++
else normal++`. -/
def tallyStep (c : Nat × Nat × Nat) (item : AnomalyLogItem) : Nat × Nat × Nat :=
  if getSeverity item.class_name = "CRITICAL" then (c.1 + 1, c.2.1, c.2.2)
  else if getSeverity item.class_name = "WARNING" then (c.1, c.2.1 + 1, c.2.2)
  else (c.1, c.2.1, c.2.2 + 1)

/-- The derived aggregates: `detCounts` and `summary`. -/
structure Stats where
  detCounts : CountMap
  summary : Summary

/-- `computeStatsFromLog` from `frontend/app/learn/page.tsx`: one loop builds
`detCounts` by bumping the entry for each record's class, a second loop
tallies critical/warnings/normal from the severity labels, and `total` is
the length of the log. -/
def computeStatsFromLog (log : List AnomalyLogItem) : Stats :=
  let detCounts := log.foldl (fun m item => bumpClass m item.class_name) emptyCounts
  let tally := log.foldl tallyStep (0, 0, 0)
  { detCounts := detCounts
    summary := { total := log.length, critical := tally.1,
                 warnings := tally.2.1, normal := tally.2.2 } }

/-- The number of records of class `k` in `log`. -/
def countIn (log : List AnomalyLogItem) (k : String) : Nat :=
  log.countP (fun it => it.class_name == k)

/-- The number of records of `log` whose severity label is CRITICAL. -/
def critCount (log : List AnomalyLogItem) : Nat :=
  log.countP (fun it => getSeverity it.class_name == "CRITICAL")

/-- The number of records of `log` whose severity label is WARNING. -/
def warnCount (log : List AnomalyLogItem) : Nat :=
  log.countP (fun it => getSeverity it.class_name == "WARNING")

/-- The number of records of `log` falling into the `else` branch of the
tally (label neither CRITICAL nor WARNING). -/
def normCount (log : List AnomalyLogItem) : Nat :=
  log.countP (fun it =>
    !(getSeverity it.class_name == "CRITICAL") &&
    !(getSeverity it.class_name == "WARNING"))

/-- The list built by `anomalyLog.filter((_, i) => i !== index)` in
`removeAnomalyAtIndex`: keep every element whose position differs from
`index`.  JavaScript's `Array.filter` passes the element's position to the
callback, which the embedding makes explicit through `List.enum`. -/
def removeAtList (log : List AnomalyLogItem) (index : Nat) : List AnomalyLogItem :=
  (log.enum.filter (fun p => p.1 != index)).map Prod.snd

/-- The component state of the detection console that constitutes the mission
session in `frontend/app/learn/page.tsx`: the ordered record list and the
derived `detCounts` and `summary`. -/
structure SessionState where
  anomalyLog : List AnomalyLogItem
  detCounts : CountMap
  summary : Summary

/-- The zero summary `{ total: 0, critical: 0, warnings: 0, normal: 0 }`. -/
def emptySummary : Summary := ⟨0, 0, 0, 0⟩

/-- `resetSession` from `frontend/app/learn/page.tsx` (the session-relevant
setters): empty log, empty counts, zero summary. -/
def resetSession : SessionState := ⟨[], emptyCounts, emptySummary⟩

/-- `removeAnomalyAtIndex` from `frontend/app/learn/page.tsx`: filter the
record at `index` out of the log and recompute both aggregates from the
remaining list with `computeStatsFromLog`. -/
def removeAnomalyAtIndex (s : SessionState) (index : Nat) : SessionState :=
  let next := removeAtList s.anomalyLog index
  ⟨next, (computeStatsFromLog next).detCounts, (computeStatsFromLog next).summary⟩

/-- The `detCounts` update of `mergeResults`: for each entry `(k, v)` of the
new counts object, `next[k] = (next[k] ?? 0) + v`; keys absent from the new
counts keep their previous value. -/
def addCounts (prev newCounts : CountMap) : CountMap :=
  fun k =>
    match newCounts k with
    | none => prev k
    | some v => some ((prev k).getD 0 + v)

/-- The `summary` update of `mergeResults`: fieldwise addition. -/
def addSummary (prev new : Summary) : Summary :=
  ⟨prev.total + new.total, prev.critical + new.critical,
   prev.warnings + new.warnings, prev.normal + new.normal⟩

/-- `mergeResults` from `frontend/app/learn/page.tsx`: append the new log,
add the new counts entrywise, add the summary fieldwise (all through
functional state updates, so they act on the current queued state). -/
def mergeResults (s : SessionState) (newLog : List AnomalyLogItem)
    (newCounts : CountMap) (newSummary : Summary) : SessionState :=
  ⟨s.anomalyLog ++ newLog, addCounts s.detCounts newCounts,
   addSummary s.summary newSummary⟩

/-- The stored aggregates are exactly those recomputed from the stored log. -/
def StatsConsistent (s : SessionState) : Prop :=
  s.detCounts = (computeStatsFromLog s.anomalyLog).detCounts ∧
  s.summary = (computeStatsFromLog s.anomalyLog).summary

/-- The session whose aggregates were computed from its log. -/
def sessionOf (log : List AnomalyLogItem) : SessionState :=
  ⟨log, (computeStatsFromLog log).detCounts, (computeStatsFromLog log).summary⟩

/-- Recomputing the derived aggregates of a session from its record list
alone, leaving the list untouched (`computeStatsFromLog` applied to the
stored log, as `removeAnomalyAtIndex` does after an edit). -/
def recompute (s : SessionState) : SessionState :=
  sessionOf s.anomalyLog

/-- The four risk levels of the triage engine. -/
inductive RiskLevel where
  | NONE
  | LOW
  | MEDIUM
  | HIGH
  deriving DecidableEq, Repr

/-- The critical classes of the fixed partition (the CRITICAL rows of the
`SEVERITY` table). -/
def criticalClasses : List String := ["corrosion", "damage", "free_span"]

/-- The warning classes of the fixed partition (the WARNING rows of the
`SEVERITY` table). -/
def warningClasses : List String := ["marine_growth", "debris"]

/-- The sum of the counts of the critical classes in a counts object given by
its entry list. -/
def critOf (counts : List (String × Nat)) : Nat :=
  ((counts.filter (fun e => criticalClasses.contains e.1)).map Prod.snd).sum

/-- The sum of the counts of the warning classes. -/
def warnOf (counts : List (String × Nat)) : Nat :=
  ((counts.filter (fun e => warningClasses.contains e.1)).map Prod.snd).sum

/-- The sum of all counts. -/
def totalOf (counts : List (String × Nat)) : Nat :=
  (counts.map Prod.snd).sum

/-- Modelled from the spec: the backend RiskClassifier (spec §4.1) is not
among the repository's files under src/ — only its caller
(`runAgentMission` in `frontend/lib/api.ts`) is.  Deterministic total order
of evaluation: HIGH if `crit ≥ 2` or (`crit = 1` and `warn ≥ 3`); else
MEDIUM if `crit = 1` or `warn ≥ 3`; else LOW if `total > 0`; else NONE. -/
def classifyRisk (counts : List (String × Nat)) : RiskLevel :=
  if 2 ≤ critOf counts ∨ (critOf counts = 1 ∧ 3 ≤ warnOf counts) then .HIGH
  else if critOf counts = 1 ∨ 3 ≤ warnOf counts then .MEDIUM
  else if 0 < totalOf counts then .LOW
  else .NONE

/-- `DispatchOutcome`: `{ attempted, sent, info }`. -/
structure DispatchOutcome where
  attempted : Bool
  sent : Bool
  info : String
  deriving DecidableEq, Repr

/-- Modelled from the spec: the backend NotificationDispatcher (spec §4.4) is
not among the repository's files under src/.  Send only if all of
`total > 0`, `risk ∈ {MEDIUM, HIGH}`, non-empty `phone` and
`sendRequested` hold; a negative decision returns
`{attempted: false, sent: false}` with an explanatory info string and makes
no external call.  The provider is a parameter from destination and message
to (success, info); the second component of the result records the external
call made, `none` when none was. -/
def notificationDispatcher (total : Nat) (risk : RiskLevel) (phone : String)
    (sendRequested : Bool) (provider : String → String → Bool × String)
    (message : String) : DispatchOutcome × Option (String × String) :=
  if total = 0 then
    (⟨false, false, "no findings to report"⟩, none)
  else if ¬ (risk = .MEDIUM ∨ risk = .HIGH) then
    (⟨false, false, "risk below threshold"⟩, none)
  else if phone = "" then
    (⟨false, false, "no phone"⟩, none)
  else if ¬ sendRequested then
    (⟨false, false, "not requested"⟩, none)
  else
    (⟨true, (provider phone message).1, (provider phone message).2⟩,
      some (phone, message))

/-- The session aggregates a detection run hands to `triggerAgentAlert`. -/
structure TriagePayload where
  anomaly_log : List AnomalyLogItem
  det_counts : CountMap
  summary : Summary

/-- The body `triggerAgentAlert` passes to `runAgentMission` (the mission
context strings play no role in the claims and are omitted). -/
structure TriageRequest where
  anomaly_log : List AnomalyLogItem
  det_counts : CountMap
  summary : Summary
  phone : Option String
  send_whatsapp : Bool

/-- `phone.replace(/\s/g, "")`: drop every whitespace character. -/
def stripWhitespace (s : String) : String :=
  String.mk (s.data.filter (fun c => !c.isWhitespace))

/-- `triggerAgentAlert` from `frontend/app/learn/page.tsx`: return early
(no request) when the payload's log is empty; otherwise normalize the
user's phone (`user?.phone?.replace(/\s/g, "") ?? ""`) and issue the
triage request with `phone: normalizedPhone || undefined` and
`send_whatsapp: Boolean(normalizedPhone)`.  The result is the request
issued, `none` when none was. -/
def triggerAgentAlert (payload : TriagePayload) (userPhone : Option String) :
    Option TriageRequest :=
  if payload.anomaly_log.length = 0 then none
  else
    some { anomaly_log := payload.anomaly_log
           det_counts := payload.det_counts
           summary := payload.summary
           phone :=
             if stripWhitespace (userPhone.getD "") = "" then none
             else some (stripWhitespace (userPhone.getD ""))
           send_whatsapp := stripWhitespace (userPhone.getD "") != "" }

/-- The part of a `DetectImageResponse` / `DetectVideoResponse` the session
logic consumes. -/
structure DetectResponse where
  anomaly_log : List AnomalyLogItem
  det_counts : CountMap
  summary : Summary

/-- `runImageDetection` from `frontend/app/learn/page.tsx` (the
`runVideoAnalysis` session logic is identical), for one completed
detection response.  The state setters first reset the session and the
functional updaters of `mergeResults` then act on the queued (reset)
state, so the stored session is rebuilt from the new response alone.  The
`mergedLog` / `mergedCounts` / `mergedSummary` locals, however, read the
render-time bindings `anomalyLog` / `detCounts` / `summary`, which still
hold the state from before the reset (`prev`), and the triage request is
issued from those locals. -/
def runImageDetection (prev : SessionState) (userPhone : Option String)
    (data : DetectResponse) : SessionState × Option TriageRequest :=
  let stored := mergeResults resetSession data.anomaly_log data.det_counts data.summary
  let mergedLog := prev.anomalyLog ++ data.anomaly_log
  let mergedCounts := addCounts prev.detCounts data.det_counts
  let mergedSummary := addSummary prev.summary data.summary
  (stored, triggerAgentAlert ⟨mergedLog, mergedCounts, mergedSummary⟩ userPhone)

/-- The parsed JSON body of an HTTP response, as far as the client's error
path inspects it: an optional string `detail` field; the rest of the
document is opaque. -/
structure JsonBody where
  detail : Option String
  rest : String
  deriving DecidableEq, Repr

/-- An HTTP response as `runAgentMission` observes it: the `ok` flag, the
`statusText`, and the body (`none` when `res.json()` fails to parse). -/
structure HttpResponse where
  ok : Bool
  statusText : String
  jsonBody : Option JsonBody
  deriving DecidableEq, Repr

/-- `runAgentMission` from `frontend/lib/api.ts`, response handling: on a
non-ok response the body is parsed with the fallback
`{detail: res.statusText}` when parsing fails, and the thrown message is
`err.detail || "Agent mission analysis failed"` — JavaScript `||` falls
through when `detail` is absent or the empty string.  On an ok response the
parsed body is returned (an unparsable ok body rejects with the parser's
own error). -/
def runAgentMission (res : HttpResponse) : Except String JsonBody :=
  if res.ok then
    match res.jsonBody with
    | some body => .ok body
    | none => .error "SyntaxError: unexpected token in JSON"
  else
    match
      (match res.jsonBody with
       | some body => body.detail
       | none => some res.statusText) with
    | some d => .error (if d = "" then "Agent mission analysis failed" else d)
    | none => .error "Agent mission analysis failed"

/-- The seven classes the `SEVERITY` table knows. -/
def knownClasses : List String :=
  ["corrosion", "damage", "free_span", "marine_growth", "debris", "healthy", "anode"]

/-- A two-record demonstration log: one critical, one warning record. -/
def demoLog : List AnomalyLogItem :=
  [⟨"corrosion", 1, "t0", none⟩, ⟨"debris", 1, "t1", none⟩]

/-- A counts object inconsistent with an empty batch log: it claims one
corrosion record. -/
def badCounts : CountMap :=
  fun k => if k = "corrosion" then some 1 else none

/-- A record of the session active before a new detection run starts. -/
def prevRecord : AnomalyLogItem := ⟨"corrosion", 1, "t0", none⟩

/-- The single record of the new detection run. -/
def newRecord : AnomalyLogItem := ⟨"damage", 1, "t1", none⟩

/-- A self-consistent detection response carrying only `newRecord`. -/
def staleData : DetectResponse :=
  ⟨[newRecord], (computeStatsFromLog [newRecord]).detCounts,
   (computeStatsFromLog [newRecord]).summary⟩

/-- A record of a class the `SEVERITY` table does not know. -/
def unknownItem : AnomalyLogItem := ⟨"kraken", 1, "t2", none⟩

theorem foldl_bumpClass_apply (log : List AnomalyLogItem) (m : CountMap) (k : String) :
    log.foldl (fun m item => bumpClass m item.class_name) m k
      = if countIn log k = 0 then m k else some ((m k).getD 0 + countIn log k) := by
  induction log generalizing m with
  | nil => simp [countIn]
  | cons it rest ih =>
    have hc : countIn (it :: rest) k
        = countIn rest k + (if it.class_name == k then 1 else 0) := by
      simp [countIn, List.countP_cons]
    by_cases hk : k = it.class_name
    · have hbeq : (it.class_name == k) = true := by simp [hk]
      rw [List.foldl_cons, ih, hc, hbeq]
      simp only [if_true]
      have hm : bumpClass m it.class_name k = some ((m k).getD 0 + 1) := by
        simp [bumpClass, hk]
      by_cases h0 : countIn rest k = 0
      · simp [h0, hm]
      · simp only [h0, if_false, hm]
        have : countIn rest k + 1 ≠ 0 := by omega
        simp only [this, if_false]
        congr 1
        simp
        omega
    · have hbeq : (it.class_name == k) = false := by
        simp [beq_eq_false_iff_ne]
        exact fun h => hk h.symm
      have hm : bumpClass m it.class_name k = m k := by
        simp [bumpClass, hk]
      rw [List.foldl_cons, ih, hc, hbeq]
      simp [hm]

theorem foldl_tallyStep_eq (log : List AnomalyLogItem) (c : Nat × Nat × Nat) :
    log.foldl tallyStep c
      = (c.1 + critCount log, c.2.1 + warnCount log, c.2.2 + normCount log) := by
  induction log generalizing c with
  | nil => simp [critCount, warnCount, normCount]
  | cons it rest ih =>
    rw [List.foldl_cons, ih]
    simp only [critCount, warnCount, normCount, List.countP_cons]
    by_cases h1 : getSeverity it.class_name = "CRITICAL"
    · simp [tallyStep, h1]
      omega
    · by_cases h2 : getSeverity it.class_name = "WARNING"
      · simp [tallyStep, h1, h2]
        omega
      · simp [tallyStep, h1, h2]
        omega

theorem computeStatsFromLog_detCounts (log : List AnomalyLogItem) (k : String) :
    (computeStatsFromLog log).detCounts k
      = if countIn log k = 0 then none else some (countIn log k) := by
  have h := foldl_bumpClass_apply log emptyCounts k
  simp only [computeStatsFromLog]
  rw [h]
  simp [emptyCounts]

theorem computeStatsFromLog_summary (log : List AnomalyLogItem) :
    (computeStatsFromLog log).summary
      = { total := log.length, critical := critCount log,
          warnings := warnCount log, normal := normCount log } := by
  simp only [computeStatsFromLog]
  rw [foldl_tallyStep_eq]
  simp

theorem crit_warn_norm_partition (log : List AnomalyLogItem) :
    critCount log + warnCount log + normCount log = log.length := by
  induction log with
  | nil => simp [critCount, warnCount, normCount]
  | cons it rest ih =>
    simp only [critCount, warnCount, normCount, List.countP_cons, List.length_cons] at *
    by_cases h1 : getSeverity it.class_name = "CRITICAL"
    · simp [h1]
      omega
    · by_cases h2 : getSeverity it.class_name = "WARNING"
      · simp [h1, h2]
        omega
      · simp [h1, h2]
        omega

theorem enumFrom_filter_ne_of_lt {α : Type _} (l : List α) (n m : Nat) (h : m < n) :
    ((List.enumFrom n l).filter (fun p => p.1 != m)).map Prod.snd = l := by
  induction l generalizing n with
  | nil => simp
  | cons a l ih =>
    have hne : (n != m) = true := by
      simp [bne_iff_ne]
      omega
    simp only [List.enumFrom_cons, List.filter_cons, hne, if_true, List.map_cons]
    rw [ih (n + 1) (by omega)]

theorem enumFrom_filter_ne_map (l : List AnomalyLogItem) (n i : Nat) :
    ((List.enumFrom n l).filter (fun p => p.1 != n + i)).map Prod.snd = l.eraseIdx i := by
  induction l generalizing n i with
  | nil => simp
  | cons a l ih =>
    cases i with
    | zero =>
      simp only [List.enumFrom_cons, List.filter_cons]
      have : (n != n + 0) = false := by simp
      rw [this]
      simp only [Bool.false_eq_true, if_false, List.eraseIdx_cons_zero]
      exact enumFrom_filter_ne_of_lt l (n + 1) (n + 0) (by omega)
    | succ j =>
      have hne : (n != n + (j + 1)) = true := by
        simp [bne_iff_ne]
      simp only [List.enumFrom_cons, List.filter_cons, hne, if_true, List.map_cons,
        List.eraseIdx_cons_succ]
      have harg : n + (j + 1) = (n + 1) + j := by omega
      rw [harg, ih (n + 1) j]

theorem removeAtList_eq_eraseIdx (log : List AnomalyLogItem) (index : Nat) :
    removeAtList log index = log.eraseIdx index := by
  have h := enumFrom_filter_ne_map log 0 index
  simpa [removeAtList, List.enum] using h

theorem countP_eraseIdx {α : Type _} (l : List α) (i : Nat) (p : α → Bool)
    (h : i < l.length) :
    (l.eraseIdx i).countP p + (if p l[i] then 1 else 0) = l.countP p := by
  induction l generalizing i with
  | nil => simp at h
  | cons a l ih =>
    cases i with
    | zero =>
      simp only [List.eraseIdx_cons_zero, List.countP_cons, List.getElem_cons_zero]
    | succ j =>
      have hj : j < l.length := by
        simp at h
        omega
      simp only [List.eraseIdx_cons_succ, List.countP_cons, List.getElem_cons_succ]
      have := ih j hj
      by_cases hp : p a <;> simp [hp] <;> omega

theorem countIn_eraseIdx (log : List AnomalyLogItem) (i : Nat) (k : String)
    (h : i < log.length) :
    countIn (log.eraseIdx i) k + (if log[i].class_name = k then 1 else 0)
      = countIn log k := by
  have := countP_eraseIdx log i (fun it => it.class_name == k) h
  simpa [countIn, beq_iff_eq] using this

theorem countIn_append (l1 l2 : List AnomalyLogItem) (k : String) :
    countIn (l1 ++ l2) k = countIn l1 k + countIn l2 k := by
  simp [countIn, List.countP_append]

theorem computeStats_append_detCounts (l1 l2 : List AnomalyLogItem) :
    (computeStatsFromLog (l1 ++ l2)).detCounts
      = addCounts (computeStatsFromLog l1).detCounts (computeStatsFromLog l2).detCounts := by
  funext k
  rw [computeStatsFromLog_detCounts]
  simp only [addCounts, computeStatsFromLog_detCounts, countIn_append]
  by_cases h2 : countIn l2 k = 0
  · by_cases h1 : countIn l1 k = 0 <;> simp [h1, h2]
  · simp only [h2, if_false]
    by_cases h1 : countIn l1 k = 0
    · simp [h1, h2]
    · have : ¬ (countIn l1 k + countIn l2 k = 0) := by omega
      simp [h1, h2, this]

theorem computeStats_append_summary (l1 l2 : List AnomalyLogItem) :
    (computeStatsFromLog (l1 ++ l2)).summary
      = addSummary (computeStatsFromLog l1).summary (computeStatsFromLog l2).summary := by
  simp [computeStatsFromLog_summary, addSummary, critCount, warnCount, normCount,
    List.countP_append]

/-- C1: removing the record at a valid index `i` with `removeAnomalyAtIndex`
and recomputing with `computeStatsFromLog` decrements `summary.total` by
exactly one, decrements the `detCounts` entry of the removed record's class
by exactly one (the entry disappearing when it reaches zero), and leaves
the entry of every other class unchanged. -/
theorem removeAnomalyAtIndex_decrements (log : List AnomalyLogItem) (i : Nat)
    (h : i < log.length) :
    (removeAnomalyAtIndex (sessionOf log) i).summary.total + 1
        = (computeStatsFromLog log).summary.total
    ∧ (computeStatsFromLog log).detCounts log[i].class_name
        = some (countIn log log[i].class_name)
    ∧ (removeAnomalyAtIndex (sessionOf log) i).detCounts log[i].class_name
        = (if countIn log log[i].class_name = 1 then none
           else some (countIn log log[i].class_name - 1))
    ∧ ∀ k, k ≠ log[i].class_name →
        (removeAnomalyAtIndex (sessionOf log) i).detCounts k
          = (computeStatsFromLog log).detCounts k := by
  have he : removeAtList log i = log.eraseIdx i := removeAtList_eq_eraseIdx log i
  have hc := countIn_eraseIdx log i log[i].class_name h
  rw [if_pos rfl] at hc
  have hother : ∀ k, k ≠ log[i].class_name → countIn (log.eraseIdx i) k = countIn log k := by
    intro k hkne
    have hk := countIn_eraseIdx log i k h
    rw [if_neg (fun hh => hkne hh.symm)] at hk
    omega
  refine ⟨?_, ?_, ?_, ?_⟩
  · simp only [removeAnomalyAtIndex, sessionOf, he, computeStatsFromLog_summary]
    have := List.length_eraseIdx_add_one h
    simpa using this
  · rw [computeStatsFromLog_detCounts]
    have hne : ¬ countIn log log[i].class_name = 0 := by omega
    simp [hne]
  · simp only [removeAnomalyAtIndex, sessionOf, he]
    rw [computeStatsFromLog_detCounts]
    by_cases h1 : countIn log log[i].class_name = 1
    · have hz : countIn (log.eraseIdx i) log[i].class_name = 0 := by omega
      simp [h1, hz]
    · have hz : ¬ countIn (log.eraseIdx i) log[i].class_name = 0 := by omega
      simp only [h1, hz, if_false]
      congr 1
      omega
  · intro k hkne
    simp only [removeAnomalyAtIndex, sessionOf, he]
    rw [computeStatsFromLog_detCounts, computeStatsFromLog_detCounts, hother k hkne]

/-- Witness for C1 at the concrete log `demoLog` and index 0. -/
theorem removeAnomalyAtIndex_decrements_witness :
    (removeAnomalyAtIndex (sessionOf demoLog) 0).summary.total + 1
      = (computeStatsFromLog demoLog).summary.total :=
  (removeAnomalyAtIndex_decrements demoLog 0 (by decide)).1

/-- C2: for every anomaly log, `computeStatsFromLog` satisfies
`summary.total = critical + warnings + normal`, `summary.total` equals the
number of records, and `detCounts` maps each class to exactly its number of
records in the log, with no entry for a class that does not occur. -/
theorem computeStatsFromLog_invariants (log : List AnomalyLogItem) :
    (computeStatsFromLog log).summary.total
        = (computeStatsFromLog log).summary.critical
          + (computeStatsFromLog log).summary.warnings
          + (computeStatsFromLog log).summary.normal
    ∧ (computeStatsFromLog log).summary.total = log.length
    ∧ ∀ k, (computeStatsFromLog log).detCounts k
        = if countIn log k = 0 then none else some (countIn log k) := by
  refine ⟨?_, ?_, fun k => computeStatsFromLog_detCounts log k⟩
  · rw [computeStatsFromLog_summary]
    exact (crit_warn_norm_partition log).symm
  · rw [computeStatsFromLog_summary]

/-- C3 (amended): merging a batch whose counts and summary are themselves the
exact aggregates of the batch log preserves the consistency invariant, and
removal and reset preserve it unconditionally. -/
theorem sessionOps_preserve_consistency (s : SessionState) (hs : StatsConsistent s)
    (newLog : List AnomalyLogItem) (newCounts : CountMap) (newSummary : Summary)
    (hcounts : newCounts = (computeStatsFromLog newLog).detCounts)
    (hsummary : newSummary = (computeStatsFromLog newLog).summary)
    (index : Nat) :
    StatsConsistent (mergeResults s newLog newCounts newSummary)
    ∧ StatsConsistent (removeAnomalyAtIndex s index)
    ∧ StatsConsistent resetSession := by
  refine ⟨⟨?_, ?_⟩, ⟨rfl, rfl⟩, ⟨rfl, rfl⟩⟩
  · show addCounts s.detCounts newCounts
      = (computeStatsFromLog (s.anomalyLog ++ newLog)).detCounts
    rw [computeStats_append_detCounts, hs.1, hcounts]
  · show addSummary s.summary newSummary
      = (computeStatsFromLog (s.anomalyLog ++ newLog)).summary
    rw [computeStats_append_summary, hs.2, hsummary]

/-- Witness for C3 (amended) at the concrete state `resetSession` and the
self-consistent one-record batch `[prevRecord]`. -/
theorem sessionOps_preserve_consistency_witness :
    StatsConsistent (mergeResults resetSession [prevRecord]
      (computeStatsFromLog [prevRecord]).detCounts
      (computeStatsFromLog [prevRecord]).summary) :=
  (sessionOps_preserve_consistency resetSession ⟨rfl, rfl⟩ [prevRecord]
    (computeStatsFromLog [prevRecord]).detCounts
    (computeStatsFromLog [prevRecord]).summary rfl rfl 0).1

/-- Counterexample to C3 as stated: from a consistent (empty) state, merging
a provider batch whose counts and summary do not match its (empty) log
leaves the stored aggregates inconsistent with the merged list. -/
theorem mergeResults_inconsistent_batch_cex :
    StatsConsistent resetSession
    ∧ ¬ StatsConsistent (mergeResults resetSession [] badCounts ⟨1, 0, 0, 0⟩) := by
  refine ⟨⟨rfl, rfl⟩, fun hcon => ?_⟩
  have hsum := hcon.2
  simp [mergeResults, addSummary, emptySummary, resetSession,
    computeStatsFromLog] at hsum

/-- C8: recomputation of the derived aggregates is idempotent: `recompute`
leaves the record list untouched, its aggregates are those of
`computeStatsFromLog` on that list, and recomputing again changes
nothing. -/
theorem recompute_idempotent (s : SessionState) :
    recompute (recompute s) = recompute s
    ∧ (recompute s).anomalyLog = s.anomalyLog
    ∧ (recompute s).detCounts = (computeStatsFromLog s.anomalyLog).detCounts
    ∧ (recompute s).summary = (computeStatsFromLog s.anomalyLog).summary :=
  ⟨rfl, rfl, rfl, rfl⟩

/-- C9: a record whose class is not one of the seven known classes gets the
default WARNING severity, so appending it increments `summary.warnings` by
one and leaves `summary.critical` and `summary.normal` unchanged. -/
theorem unknownClass_counts_as_warning (log : List AnomalyLogItem)
    (item : AnomalyLogItem) (h : item.class_name ∉ knownClasses) :
    getSeverity item.class_name = "WARNING"
    ∧ (computeStatsFromLog (log ++ [item])).summary.warnings
        = (computeStatsFromLog log).summary.warnings + 1
    ∧ (computeStatsFromLog (log ++ [item])).summary.critical
        = (computeStatsFromLog log).summary.critical
    ∧ (computeStatsFromLog (log ++ [item])).summary.normal
        = (computeStatsFromLog log).summary.normal := by
  have hsev : getSeverity item.class_name = "WARNING" := by
    simp only [knownClasses, List.mem_cons, List.not_mem_nil, or_false, not_or] at h
    obtain ⟨h1, h2, h3, h4, h5, h6, h7⟩ := h
    simp [getSeverity, SEVERITY, h1, h2, h3, h4, h5, h6, h7]
  refine ⟨hsev, ?_, ?_, ?_⟩ <;>
    simp [computeStatsFromLog_summary, warnCount, critCount, normCount,
      List.countP_append, hsev]

/-- Witness for C9 at the concrete record `unknownItem` of class "kraken". -/
theorem unknownClass_counts_as_warning_witness :
    getSeverity unknownItem.class_name = "WARNING" :=
  (unknownClass_counts_as_warning [] unknownItem (by decide)).1

/-- C4: the stored session is fully replaced by a new run, but the triage
request issued at the end of the run is built from the render-time
(pre-reset) state and so still carries the previous session's records: at
the concrete prior session `[prevRecord]` and new response `staleData`
(one `newRecord`), the request's log is `[prevRecord, newRecord]` instead
of `[newRecord]`. -/
theorem runImageDetection_triage_carries_stale_records :
    ((runImageDetection (sessionOf [prevRecord]) none staleData).2.map
        (fun r => r.anomaly_log)) = some [prevRecord, newRecord]
    ∧ [prevRecord, newRecord] ≠ [newRecord]
    ∧ (runImageDetection (sessionOf [prevRecord]) none staleData).1.anomalyLog
        = [newRecord] := by
  refine ⟨rfl, ?_, rfl⟩
  intro hcontr
  have := congrArg List.length hcontr
  simp at this

theorem dispatcher_eq_no_findings (total : Nat) (risk : RiskLevel) (phone : String)
    (sendRequested : Bool) (provider : String → String → Bool × String)
    (message : String) (h1 : total = 0) :
    notificationDispatcher total risk phone sendRequested provider message
      = (⟨false, false, "no findings to report"⟩, none) := by
  unfold notificationDispatcher
  rw [if_pos h1]

theorem dispatcher_eq_below_threshold (total : Nat) (risk : RiskLevel) (phone : String)
    (sendRequested : Bool) (provider : String → String → Bool × String)
    (message : String) (h1 : ¬ total = 0) (h2 : ¬ (risk = .MEDIUM ∨ risk = .HIGH)) :
    notificationDispatcher total risk phone sendRequested provider message
      = (⟨false, false, "risk below threshold"⟩, none) := by
  unfold notificationDispatcher
  rw [if_neg h1, if_pos h2]

theorem dispatcher_eq_no_phone (total : Nat) (risk : RiskLevel) (phone : String)
    (sendRequested : Bool) (provider : String → String → Bool × String)
    (message : String) (h1 : ¬ total = 0) (h2 : risk = .MEDIUM ∨ risk = .HIGH)
    (h3 : phone = "") :
    notificationDispatcher total risk phone sendRequested provider message
      = (⟨false, false, "no phone"⟩, none) := by
  unfold notificationDispatcher
  rw [if_neg h1, if_neg (not_not_intro h2), if_pos h3]

theorem dispatcher_eq_not_requested (total : Nat) (risk : RiskLevel) (phone : String)
    (sendRequested : Bool) (provider : String → String → Bool × String)
    (message : String) (h1 : ¬ total = 0) (h2 : risk = .MEDIUM ∨ risk = .HIGH)
    (h3 : ¬ phone = "") (h4 : ¬ sendRequested = true) :
    notificationDispatcher total risk phone sendRequested provider message
      = (⟨false, false, "not requested"⟩, none) := by
  unfold notificationDispatcher
  rw [if_neg h1, if_neg (not_not_intro h2), if_neg h3, if_pos h4]

theorem dispatcher_eq_send (total : Nat) (risk : RiskLevel) (phone : String)
    (sendRequested : Bool) (provider : String → String → Bool × String)
    (message : String) (h1 : ¬ total = 0) (h2 : risk = .MEDIUM ∨ risk = .HIGH)
    (h3 : ¬ phone = "") (h4 : sendRequested = true) :
    notificationDispatcher total risk phone sendRequested provider message
      = (⟨true, (provider phone message).1, (provider phone message).2⟩,
         some (phone, message)) := by
  unfold notificationDispatcher
  rw [if_neg h1, if_neg (not_not_intro h2), if_neg h3, if_neg (not_not_intro h4)]

/-- C5: the dispatcher invokes the external messaging provider exactly when
all four conditions hold (`total > 0`, risk MEDIUM or HIGH, non-empty
phone, send requested); when any fails it returns attempted = false,
sent = false with a non-empty info string and makes no external call; in
particular an empty phone never reaches the provider. -/
theorem notificationDispatcher_gate (total : Nat) (risk : RiskLevel) (phone : String)
    (sendRequested : Bool) (provider : String → String → Bool × String)
    (message : String) :
    ((notificationDispatcher total risk phone sendRequested provider message).2 ≠ none
      ↔ (0 < total ∧ (risk = .MEDIUM ∨ risk = .HIGH) ∧ phone ≠ "" ∧ sendRequested = true))
    ∧ (¬ (0 < total ∧ (risk = .MEDIUM ∨ risk = .HIGH) ∧ phone ≠ "" ∧ sendRequested = true) →
        (notificationDispatcher total risk phone sendRequested provider message).1.attempted
            = false
        ∧ (notificationDispatcher total risk phone sendRequested provider message).1.sent
            = false
        ∧ (notificationDispatcher total risk phone sendRequested provider message).1.info
            ≠ ""
        ∧ (notificationDispatcher total risk phone sendRequested provider message).2 = none)
    ∧ (phone = "" →
        (notificationDispatcher total risk phone sendRequested provider message).2 = none) := by
  by_cases h1 : total = 0
  · rw [dispatcher_eq_no_findings total risk phone sendRequested provider message h1]
    refine ⟨by simp [h1], fun _ => ⟨rfl, rfl, by decide, rfl⟩, fun _ => rfl⟩
  · by_cases h2 : risk = .MEDIUM ∨ risk = .HIGH
    · by_cases h3 : phone = ""
      · rw [dispatcher_eq_no_phone total risk phone sendRequested provider message h1 h2 h3]
        refine ⟨?_, fun _ => ⟨rfl, rfl, by decide, rfl⟩, fun _ => rfl⟩
        simp only [ne_eq, not_true_eq_false, false_iff]
        exact fun hcon => hcon.2.2.1 h3
      · by_cases h4 : sendRequested = true
        · rw [dispatcher_eq_send total risk phone sendRequested provider message h1 h2 h3 h4]
          have hcond : 0 < total ∧ (risk = .MEDIUM ∨ risk = .HIGH) ∧ phone ≠ ""
              ∧ sendRequested = true := ⟨by omega, h2, h3, h4⟩
          refine ⟨⟨fun _ => hcond, fun _ => by simp⟩, fun hcon => absurd hcond hcon,
            fun hp => absurd hp h3⟩
        · rw [dispatcher_eq_not_requested total risk phone sendRequested provider message
            h1 h2 h3 h4]
          refine ⟨?_, fun _ => ⟨rfl, rfl, by decide, rfl⟩, fun _ => rfl⟩
          simp only [ne_eq, not_true_eq_false, false_iff]
          exact fun hcon => h4 hcon.2.2.2
    · rw [dispatcher_eq_below_threshold total risk phone sendRequested provider message h1 h2]
      refine ⟨?_, fun _ => ⟨rfl, rfl, by decide, rfl⟩, fun _ => rfl⟩
      simp only [ne_eq, not_true_eq_false, false_iff]
      exact fun hcon => h2 hcon.2.1

/-- C6: the spec-modelled risk classifier is a pure total function of the
counts: HIGH exactly under `crit ≥ 2 ∨ (crit = 1 ∧ warn ≥ 3)`, else MEDIUM
exactly under `crit = 1 ∨ warn ≥ 3`, else LOW exactly when `total > 0`,
else NONE — one of the four levels for every counts object. -/
theorem classifyRisk_cases (counts : List (String × Nat)) :
    (classifyRisk counts = .HIGH
        ↔ (2 ≤ critOf counts ∨ (critOf counts = 1 ∧ 3 ≤ warnOf counts)))
    ∧ (classifyRisk counts = .MEDIUM
        ↔ (¬ (2 ≤ critOf counts ∨ (critOf counts = 1 ∧ 3 ≤ warnOf counts))
           ∧ (critOf counts = 1 ∨ 3 ≤ warnOf counts)))
    ∧ (classifyRisk counts = .LOW
        ↔ (¬ (2 ≤ critOf counts ∨ (critOf counts = 1 ∧ 3 ≤ warnOf counts))
           ∧ ¬ (critOf counts = 1 ∨ 3 ≤ warnOf counts)
           ∧ 0 < totalOf counts))
    ∧ (classifyRisk counts = .NONE
        ↔ (¬ (2 ≤ critOf counts ∨ (critOf counts = 1 ∧ 3 ≤ warnOf counts))
           ∧ ¬ (critOf counts = 1 ∨ 3 ≤ warnOf counts)
           ∧ totalOf counts = 0))
    ∧ (classifyRisk counts = .HIGH ∨ classifyRisk counts = .MEDIUM
        ∨ classifyRisk counts = .LOW ∨ classifyRisk counts = .NONE) := by
  unfold classifyRisk
  split_ifs with h1 h2 h3 <;> simp_all <;> omega

/-- Counterexample to C7 as stated: on a mission with an empty anomaly log,
`triggerAgentAlert` returns without issuing any triage request, so no
triage invocation is performed. -/
theorem triggerAgentAlert_empty_log_cex :
    triggerAgentAlert ⟨[], emptyCounts, emptySummary⟩ none = none := rfl

/-- C7 (amended): on an empty anomaly log the client performs no triage
invocation at all; the spec-modelled engine, were it invoked with an empty
log, would classify the risk as NONE and report attempted = false with a
no-findings info string. -/
theorem emptyLog_no_triage_and_engine (payload : TriagePayload)
    (userPhone : Option String) (h : payload.anomaly_log = []) :
    triggerAgentAlert payload userPhone = none
    ∧ classifyRisk [] = .NONE
    ∧ ∀ (risk : RiskLevel) (phone : String) (sendRequested : Bool)
        (provider : String → String → Bool × String) (message : String),
        (notificationDispatcher 0 risk phone sendRequested provider message).1.attempted
            = false
        ∧ (notificationDispatcher 0 risk phone sendRequested provider message).1.sent
            = false
        ∧ (notificationDispatcher 0 risk phone sendRequested provider message).1.info
            = "no findings to report"
        ∧ (notificationDispatcher 0 risk phone sendRequested provider message).2 = none := by
  exact ⟨by simp [triggerAgentAlert, h], rfl, fun _ _ _ _ _ => ⟨rfl, rfl, rfl, rfl⟩⟩

/-- Witness for C7 (amended) at the concrete empty payload. -/
theorem emptyLog_no_triage_and_engine_witness :
    classifyRisk [] = RiskLevel.NONE :=
  (emptyLog_no_triage_and_engine ⟨[], emptyCounts, emptySummary⟩
    (some "+15551234567") rfl).2.1

/-- Counterexample to C10 as stated: a non-ok response whose body does not
parse and whose statusText is non-empty raises the statusText, which is
neither a `detail` field of the body nor the fixed fallback message. -/
theorem runAgentMission_statusText_cex :
    runAgentMission ⟨false, "Internal Server Error", none⟩
        = .error "Internal Server Error"
    ∧ "Internal Server Error" ≠ "Agent mission analysis failed" := by
  exact ⟨rfl, by decide⟩

/-- C10 (amended): `runAgentMission` returns the parsed body exactly on an ok
response; on a non-ok response it throws — with the body's `detail` field
when the body parses as JSON with a non-empty string `detail`, with the
fixed fallback when `detail` is absent or empty, and with
`statusText || fallback` when the body does not parse — and never returns
a result. -/
theorem runAgentMission_error_paths (res : HttpResponse) :
    (res.ok = true → ∀ body, res.jsonBody = some body → runAgentMission res = .ok body)
    ∧ (res.ok = false →
        (∀ body d, res.jsonBody = some body → body.detail = some d → d ≠ "" →
            runAgentMission res = .error d)
        ∧ (∀ body, res.jsonBody = some body →
            (body.detail = none ∨ body.detail = some "") →
            runAgentMission res = .error "Agent mission analysis failed")
        ∧ (res.jsonBody = none →
            runAgentMission res = .error
              (if res.statusText = "" then "Agent mission analysis failed"
               else res.statusText))
        ∧ ∀ body, runAgentMission res ≠ .ok body) := by
  obtain ⟨ok, st, jb⟩ := res
  cases ok with
  | true =>
    refine ⟨fun _ body hb => ?_, fun hfalse => by simp at hfalse⟩
    have hb' : jb = some body := hb
    subst hb'
    rfl
  | false =>
    refine ⟨fun htrue => by simp at htrue, fun _ => ⟨?_, ?_, ?_, ?_⟩⟩
    · intro body d hb hd hne
      have hb' : jb = some body := hb
      subst hb'
      simp [runAgentMission, hd, hne]
    · intro body hb hcase
      have hb' : jb = some body := hb
      subst hb'
      rcases hcase with hnone | hempty
      · simp [runAgentMission, hnone]
      · simp [runAgentMission, hempty]
    · intro hb
      have hb' : jb = none := hb
      subst hb'
      by_cases hst : st = "" <;> simp [runAgentMission, hst]
    · intro body
      simp only [runAgentMission, Bool.false_eq_true, if_false]
      cases jb with
      | none => simp
      | some b =>
        cases hb : b.detail with
        | none => simp [hb]
        | some d => simp [hb]

end NauticAI
